import Mathlib

/-!
Verification of the flow-based DDoS detection pipeline (`ddos_detector.py`):
flow bookkeeping and feature extraction (`Flow`), bidirectional flow keys
(`FlowMeter.get_flow_key`), the heuristic / model-backed classifier
(`MLClassifier`), the iptables mitigation filter (`IPTablesFilter`) and the
per-packet detection step of `DDoSDetectionSystem.process_packet`.

Timestamps are rationals measured in seconds (Python `datetime` values enter
the code only through `total_seconds()` differences); packet sizes and
counters are naturals; every float the source computes is modelled as a
rational.  `numpy`'s standard deviation (the one irrational quantity) is
library code outside the repository; it is taken as an arbitrary function
parameter `std`, applied exactly where the source applies `np.std`.
-/

namespace DDoS

/-- Transport layer of a captured packet: scapy's `TCP` (ports and the flag
bitmask read at `packet[TCP].flags`), `UDP` (ports), or anything else. -/
inductive Transport where
  | tcp (sport dport : Nat) (flags : Nat)
  | udp (sport dport : Nat)
  | other
deriving DecidableEq, Repr

/-- The IP layer of a packet: `ip.src`, `ip.dst` (dotted-quad strings, compared
by Python exactly as Lean compares strings: code point by code point) and
`ip.proto`. -/
structure IPLayer where
  src : String
  dst : String
  proto : Nat
deriving DecidableEq, Repr

/-- A captured packet as the pipeline reads it: optional IP layer (a packet
without one is non-IP and produces no flow), its transport layer, and
`len(packet)`. -/
structure Packet where
  ip : Option IPLayer
  transport : Transport
  size : Nat
deriving DecidableEq, Repr

/-- `packet[TCP].flags` when the packet has a TCP layer. -/
def Packet.tcpFlags : Packet → Option Nat
  | ⟨_, Transport.tcp _ _ flags, _⟩ => some flags
  | _ => none

/-- The source/destination ports the key derivation reads: TCP ports, UDP
ports, else `(0, 0)` (`FlowMeter.get_flow_key`, lines 208-213). -/
def Transport.ports : Transport → Nat × Nat
  | Transport.tcp s d _ => (s, d)
  | Transport.udp s d => (s, d)
  | Transport.other => (0, 0)

/-- `Flow.__init__` plus every mutable statistic `add_packet` maintains
(lines 44-82).  Times are in seconds; the packet-size and inter-arrival
sample lists are rationals (inter-arrival samples are stored in
microseconds). -/
structure Flow where
  src_ip : String
  dst_ip : String
  src_port : Nat
  dst_port : Nat
  protocol : Nat
  start_time : Option ℚ := none
  last_time : Option ℚ := none
  fwd_packets : Nat := 0
  bwd_packets : Nat := 0
  fwd_bytes : Nat := 0
  bwd_bytes : Nat := 0
  fwd_packet_sizes : List ℚ := []
  bwd_packet_sizes : List ℚ := []
  fwd_iat : List ℚ := []
  bwd_iat : List ℚ := []
  last_fwd_time : Option ℚ := none
  last_bwd_time : Option ℚ := none
  syn_count : Nat := 0
  ack_count : Nat := 0
  fin_count : Nat := 0
  rst_count : Nat := 0
  psh_count : Nat := 0
  urg_count : Nat := 0
deriving DecidableEq, Repr

/-- A fresh flow for a 5-tuple (`Flow.__init__`). -/
def Flow.init (src_ip dst_ip : String) (src_port dst_port protocol : Nat) : Flow :=
  { src_ip := src_ip, dst_ip := dst_ip, src_port := src_port,
    dst_port := dst_port, protocol := protocol }

/-- `Flow.add_packet` (lines 84-119): update timestamps, then the counters,
size samples and inter-arrival samples of the packet's direction, then the
TCP flag counters when the packet has a TCP layer. -/
def Flow.add_packet (f : Flow) (packet : Packet) (timestamp : ℚ) (is_forward : Bool) :
    Flow :=
  let f := { f with
    start_time := match f.start_time with
      | none => some timestamp
      | some s => some s,
    last_time := some timestamp }
  let pkt_size : ℚ := packet.size
  let f :=
    if is_forward then
      { f with
        fwd_packets := f.fwd_packets + 1,
        fwd_bytes := f.fwd_bytes + packet.size,
        fwd_packet_sizes := f.fwd_packet_sizes ++ [pkt_size],
        fwd_iat := match f.last_fwd_time with
          | some t0 => f.fwd_iat ++ [(timestamp - t0) * 1000000]
          | none => f.fwd_iat,
        last_fwd_time := some timestamp }
    else
      { f with
        bwd_packets := f.bwd_packets + 1,
        bwd_bytes := f.bwd_bytes + packet.size,
        bwd_packet_sizes := f.bwd_packet_sizes ++ [pkt_size],
        bwd_iat := match f.last_bwd_time with
          | some t0 => f.bwd_iat ++ [(timestamp - t0) * 1000000]
          | none => f.bwd_iat,
        last_bwd_time := some timestamp }
  match packet.tcpFlags with
  | none => f
  | some flags =>
    { f with
      syn_count := f.syn_count + (if flags &&& 0x02 ≠ 0 then 1 else 0),
      ack_count := f.ack_count + (if flags &&& 0x10 ≠ 0 then 1 else 0),
      fin_count := f.fin_count + (if flags &&& 0x01 ≠ 0 then 1 else 0),
      rst_count := f.rst_count + (if flags &&& 0x04 ≠ 0 then 1 else 0),
      psh_count := f.psh_count + (if flags &&& 0x08 ≠ 0 then 1 else 0),
      urg_count := f.urg_count + (if flags &&& 0x20 ≠ 0 then 1 else 0) }

/-- `Flow.get_duration` (lines 121-125): microseconds between the first and
last packet, `0` before both timestamps exist. -/
def Flow.get_duration (f : Flow) : ℚ :=
  match f.start_time, f.last_time with
  | some s, some l => (l - s) * 1000000
  | _, _ => 0

/-- The effective duration in seconds that every per-second rate divides by
(line 130): `duration / 1000000 if duration > 0 else 0.001`. -/
def Flow.duration_sec (f : Flow) : ℚ :=
  if f.get_duration > 0 then f.get_duration / 1000000 else 1 / 1000

/-- Python's `min(xs)` guarded by `if xs else 0`. -/
def listMin : List ℚ → ℚ
  | [] => 0
  | x :: xs => xs.foldl min x

/-- Python's `max(xs)` guarded by `if xs else 0`. -/
def listMax : List ℚ → ℚ
  | [] => 0
  | x :: xs => xs.foldl max x

/-- `np.mean`: the arithmetic mean. -/
def npMean (xs : List ℚ) : ℚ := xs.sum / xs.length

/-- `np.var`: the population variance (mean squared deviation). -/
def npVar (xs : List ℚ) : ℚ := (xs.map (fun x => (x - npMean xs) ^ 2)).sum / xs.length

/-- The source's recurring guard `np.mean(xs) if xs else 0`. -/
def meanOr0 (xs : List ℚ) : ℚ := if xs ≠ [] then npMean xs else 0

/-- The source's recurring guard `np.std(xs) if len(xs) > 1 else 0`; `std`
stands for `np.std`. -/
def stdOr0 (std : List ℚ → ℚ) (xs : List ℚ) : ℚ := if xs.length > 1 then std xs else 0

/-- The source's guard `np.var(xs) if len(xs) > 1 else 0`. -/
def varOr0 (xs : List ℚ) : ℚ := if xs.length > 1 then npVar xs else 0

/-- The source's recurring guard `num / den if den > 0 else 0` for ratio
features whose denominator is a packet count. -/
def divIfPos (num : ℚ) (den : Nat) : ℚ := if den > 0 then num / den else 0

/-- The feature dictionary `Flow.extract_features` builds (lines 138-187),
one field per key, in the source's order.  Counters that are Python ints are
naturals; every float is a rational. -/
structure FeatureSnapshot where
  flow_duration : ℚ := 0
  total_fwd_packets : Nat := 0
  total_bwd_packets : Nat := 0
  total_packets : Nat := 0
  total_fwd_bytes : Nat := 0
  total_bwd_bytes : Nat := 0
  total_bytes : Nat := 0
  fwd_pkt_len_min : ℚ := 0
  fwd_pkt_len_max : ℚ := 0
  fwd_pkt_len_mean : ℚ := 0
  fwd_pkt_len_std : ℚ := 0
  bwd_pkt_len_min : ℚ := 0
  bwd_pkt_len_max : ℚ := 0
  bwd_pkt_len_mean : ℚ := 0
  bwd_pkt_len_std : ℚ := 0
  pkt_len_min : ℚ := 0
  pkt_len_max : ℚ := 0
  pkt_len_mean : ℚ := 0
  pkt_len_std : ℚ := 0
  pkt_len_var : ℚ := 0
  flow_bytes_per_sec : ℚ := 0
  flow_packets_per_sec : ℚ := 0
  fwd_packets_per_sec : ℚ := 0
  bwd_packets_per_sec : ℚ := 0
  fwd_iat_total : ℚ := 0
  fwd_iat_mean : ℚ := 0
  fwd_iat_std : ℚ := 0
  fwd_iat_min : ℚ := 0
  fwd_iat_max : ℚ := 0
  bwd_iat_total : ℚ := 0
  bwd_iat_mean : ℚ := 0
  bwd_iat_std : ℚ := 0
  bwd_iat_min : ℚ := 0
  bwd_iat_max : ℚ := 0
  flow_iat_mean : ℚ := 0
  flow_iat_std : ℚ := 0
  flow_iat_min : ℚ := 0
  flow_iat_max : ℚ := 0
  syn_flag_count : Nat := 0
  ack_flag_count : Nat := 0
  fin_flag_count : Nat := 0
  rst_flag_count : Nat := 0
  psh_flag_count : Nat := 0
  urg_flag_count : Nat := 0
  down_up_ratio : ℚ := 0
  avg_pkt_size : ℚ := 0
  fwd_seg_size_avg : ℚ := 0
  bwd_seg_size_avg : ℚ := 0
deriving DecidableEq

/-- `Flow.extract_features` (lines 127-189).  `std` stands for `np.std`
(numpy library code, not part of this repository); it is applied exactly
where the source applies `np.std`, always guarded by `len(xs) > 1`. -/
def Flow.extract_features (std : List ℚ → ℚ) (f : Flow) : FeatureSnapshot :=
  let duration := f.get_duration
  let duration_sec := f.duration_sec
  let total_packets := f.fwd_packets + f.bwd_packets
  let total_bytes := f.fwd_bytes + f.bwd_bytes
  let all_sizes := f.fwd_packet_sizes ++ f.bwd_packet_sizes
  let all_iat := f.fwd_iat ++ f.bwd_iat
  { flow_duration := duration,
    total_fwd_packets := f.fwd_packets,
    total_bwd_packets := f.bwd_packets,
    total_packets := total_packets,
    total_fwd_bytes := f.fwd_bytes,
    total_bwd_bytes := f.bwd_bytes,
    total_bytes := total_bytes,
    fwd_pkt_len_min := listMin f.fwd_packet_sizes,
    fwd_pkt_len_max := listMax f.fwd_packet_sizes,
    fwd_pkt_len_mean := meanOr0 f.fwd_packet_sizes,
    fwd_pkt_len_std := stdOr0 std f.fwd_packet_sizes,
    bwd_pkt_len_min := listMin f.bwd_packet_sizes,
    bwd_pkt_len_max := listMax f.bwd_packet_sizes,
    bwd_pkt_len_mean := meanOr0 f.bwd_packet_sizes,
    bwd_pkt_len_std := stdOr0 std f.bwd_packet_sizes,
    pkt_len_min := listMin all_sizes,
    pkt_len_max := listMax all_sizes,
    pkt_len_mean := meanOr0 all_sizes,
    pkt_len_std := stdOr0 std all_sizes,
    pkt_len_var := varOr0 all_sizes,
    flow_bytes_per_sec := total_bytes / duration_sec,
    flow_packets_per_sec := total_packets / duration_sec,
    fwd_packets_per_sec := f.fwd_packets / duration_sec,
    bwd_packets_per_sec := f.bwd_packets / duration_sec,
    fwd_iat_total := f.fwd_iat.sum,
    fwd_iat_mean := meanOr0 f.fwd_iat,
    fwd_iat_std := stdOr0 std f.fwd_iat,
    fwd_iat_min := listMin f.fwd_iat,
    fwd_iat_max := listMax f.fwd_iat,
    bwd_iat_total := f.bwd_iat.sum,
    bwd_iat_mean := meanOr0 f.bwd_iat,
    bwd_iat_std := stdOr0 std f.bwd_iat,
    bwd_iat_min := listMin f.bwd_iat,
    bwd_iat_max := listMax f.bwd_iat,
    flow_iat_mean := meanOr0 all_iat,
    flow_iat_std := stdOr0 std all_iat,
    flow_iat_min := listMin all_iat,
    flow_iat_max := listMax all_iat,
    syn_flag_count := f.syn_count,
    ack_flag_count := f.ack_count,
    fin_flag_count := f.fin_count,
    rst_flag_count := f.rst_count,
    psh_flag_count := f.psh_count,
    urg_flag_count := f.urg_count,
    down_up_ratio := divIfPos f.bwd_packets f.fwd_packets,
    avg_pkt_size := divIfPos total_bytes total_packets,
    fwd_seg_size_avg := divIfPos f.fwd_bytes f.fwd_packets,
    bwd_seg_size_avg := divIfPos f.bwd_bytes f.bwd_packets }

/-- The state-passing view of the Python method call
`flow.extract_features()`: the method reads `self` and builds a fresh
dictionary, assigning no attribute of `self`, so the record it returns is
the receiver unchanged. -/
def Flow.extract_features_call (std : List ℚ → ℚ) (f : Flow) : FeatureSnapshot × Flow :=
  (f.extract_features std, f)

/-- `FlowMeter.get_flow_key` (lines 199-219): `None` for a packet without an
IP layer; otherwise the bidirectional key, ordered by Python's lexicographic
comparison `(src_ip, src_port) < (dst_ip, dst_port)`. -/
def get_flow_key (packet : Packet) : Option (String × String × Nat × Nat × Nat) :=
  match packet.ip with
  | none => none
  | some ip =>
    let ports := packet.transport.ports
    let src_port := ports.1
    let dst_port := ports.2
    if ip.src < ip.dst ∨ (ip.src = ip.dst ∧ src_port < dst_port) then
      some (ip.src, ip.dst, src_port, dst_port, ip.proto)
    else
      some (ip.dst, ip.src, dst_port, src_port, ip.proto)

/-- Lexicographic order on the `(address, port)` pairs the key derivation
compares (Python tuple comparison). -/
def pairLe (a b : String × Nat) : Prop :=
  a.1 < b.1 ∨ (a.1 = b.1 ∧ a.2 ≤ b.2)

/-- The five independently triggered heuristic rules (`heuristic_detection`,
lines 330-365).  The source stores each trigger as a formatted message; only
the identity of the rule matters here. -/
inductive Reason where
  | highPacketRate
  | synFlood
  | highBandwidth
  | smallPacketsHighRate
  | asymmetric
deriving DecidableEq, Repr

/-- The 4-tuple `heuristic_detection` returns:
`(is_malicious, label, confidence, reasons)`. -/
structure HeurResult where
  is_malicious : Bool
  label : String
  confidence : ℚ
  reasons : List Reason
deriving DecidableEq, Repr

/-- `MLClassifier.heuristic_detection` (lines 330-365): evaluate the five
rules in order, appending a reason for each rule that fires; malicious iff
some reason fired; confidence `min(len(reasons) / 3, 1.0)`. -/
def heuristic_detection (features : FeatureSnapshot) : HeurResult :=
  let pps := features.flow_packets_per_sec
  let reasons : List Reason := if pps > 1000 then [Reason.highPacketRate] else []
  let syn := features.syn_flag_count
  let ack := features.ack_flag_count
  let reasons :=
    if syn > 50 ∧ (ack = 0 ∨ (syn : ℚ) / ((ack : ℚ) + 1) > 10) then
      reasons ++ [Reason.synFlood]
    else reasons
  let bps := features.flow_bytes_per_sec
  let reasons := if bps > 10000000 then reasons ++ [Reason.highBandwidth] else reasons
  let avg_size := features.avg_pkt_size
  let reasons :=
    if avg_size < 100 ∧ pps > 500 then reasons ++ [Reason.smallPacketsHighRate]
    else reasons
  let fwd := features.total_fwd_packets
  let bwd := features.total_bwd_packets
  let reasons :=
    if fwd > 100 ∧ (bwd = 0 ∨ (fwd : ℚ) / ((bwd : ℚ) + 1) > 20) then
      reasons ++ [Reason.asymmetric]
    else reasons
  let is_malicious := decide (reasons.length > 0)
  { is_malicious := is_malicious,
    label := if is_malicious then "DDoS" else "BENIGN",
    confidence := min ((reasons.length : ℚ) / 3) 1,
    reasons := if is_malicious then reasons else [] }

/-- The SYN-flood rule exactly as the specification words it: the SYN count
exceeds 50 and the SYN:ACK ratio exceeds 10, zero ACKs counting as maximally
skewed.  Stated for comparison with `heuristic_detection`, which divides by
`ack + 1` instead. -/
def synFloodSpecTrigger (syn ack : Nat) : Prop :=
  syn > 50 ∧ (ack = 0 ∨ (syn : ℚ) / (ack : ℚ) > 10)

instance (syn ack : Nat) : Decidable (synFloodSpecTrigger syn ack) := by
  unfold synFloodSpecTrigger
  infer_instance

/-- What `MLClassifier.predict` returns to `process_packet`: the model path
yields a 3-tuple, the heuristic path a 4-tuple (the pipeline dispatches on
the tuple's length, lines 530-534). -/
inductive PredictResult where
  | ml (is_malicious : Bool) (label : String) (confidence : ℚ)
  | heur (r : HeurResult)
deriving DecidableEq, Repr

/-- The classifier's state: `use_heuristics` (set at load time), and the
model-backed prediction path.  `model_infer` abstracts the body of the `try`
block of `predict` (lines 304-321: feature-vector assembly over
`feature_columns`, scaling, prediction, optional probability, label
decoding): externally produced artifact code that either yields a
`(label, confidence)` pair or fails with some error. -/
structure MLClassifier where
  use_heuristics : Bool
  model_infer : FeatureSnapshot → Except String (String × ℚ)

/-- `MLClassifier.predict` (lines 298-328): heuristics when no model is
loaded; otherwise run the model path, mapping its label to a verdict
(`is_malicious` iff the upper-cased label is not `BENIGN`), and on any
failure inside the model path fall back to `heuristic_detection` for this
call. -/
def MLClassifier.predict (c : MLClassifier) (flow_features : FeatureSnapshot) :
    PredictResult :=
  if c.use_heuristics then PredictResult.heur (heuristic_detection flow_features)
  else
    match c.model_infer flow_features with
    | Except.ok (label, confidence) =>
      PredictResult.ml (label.toUpper ≠ "BENIGN") label confidence
    | Except.error _ => PredictResult.heur (heuristic_detection flow_features)

/-- The outcome of one external `subprocess.run` enforcement invocation:
the process completed within the timeout with some exit code, or the
invocation raised (timeout expired, command missing, ...). -/
inductive CmdOutcome where
  | completed (returncode : Int)
  | raised
deriving DecidableEq, Repr

/-- Python's `s.startswith(p)`: `p` is a prefix of `s`, character by
character. -/
def py_startswith (s p : String) : Bool := p.data.isPrefixOf s.data

/-- `IPTablesFilter`: the set of addresses currently blocked (Python set,
modelled as a duplicate-free list built by its operations). -/
structure IPTablesFilter where
  blocked_ips : List String
deriving DecidableEq, Repr

/-- What one `block_ip` call produced: its boolean result, the filter state
after it, and how many external enforcement commands it ran. -/
structure BlockResult where
  success : Bool
  filter : IPTablesFilter
  invocations : Nat
deriving DecidableEq, Repr

/-- `IPTablesFilter.block_ip` (lines 374-397): no-op success when the
address is already blocked; refuse loopback (`127.` prefix) and `0.0.0.0`
without running anything; otherwise run the iptables append command once,
recording the address on exit code 0.  `world` is the outcome of that
external invocation. -/
def block_ip (f : IPTablesFilter) (ip_address : String) (world : CmdOutcome) :
    BlockResult :=
  if ip_address ∈ f.blocked_ips then ⟨true, f, 0⟩
  else if py_startswith ip_address "127." = true ∨ ip_address = "0.0.0.0" then ⟨false, f, 0⟩
  else
    match world with
    | CmdOutcome.completed rc =>
      if rc = 0 then ⟨true, ⟨f.blocked_ips ++ [ip_address]⟩, 1⟩
      else ⟨false, f, 1⟩
    | CmdOutcome.raised => ⟨false, f, 1⟩

/-- `IPTablesFilter.unblock_ip` (lines 399-407): run the iptables delete
command; if the invocation completes (whatever its exit code) discard the
address and return `True`; if it raises, return `False` with the set
untouched. -/
def unblock_ip (f : IPTablesFilter) (ip_address : String) (world : CmdOutcome) :
    Bool × IPTablesFilter :=
  match world with
  | CmdOutcome.completed _ => (true, ⟨f.blocked_ips.filter (· ≠ ip_address)⟩)
  | CmdOutcome.raised => (false, f)

/-- Filter states the running system can be in: the empty initial set and
anything `block_ip` / `unblock_ip` produce from one. -/
inductive FilterReached : IPTablesFilter → Prop where
  | init : FilterReached ⟨[]⟩
  | block (f : IPTablesFilter) (ip : String) (w : CmdOutcome) :
      FilterReached f → FilterReached (block_ip f ip w).filter
  | unblock (f : IPTablesFilter) (ip : String) (w : CmdOutcome) :
      FilterReached f → FilterReached (unblock_ip f ip w).2

/-- The action recorded with a detection: `blocked` when the block attempt
succeeded, `detected` when it failed. -/
inductive Action where
  | blocked
  | detected
deriving DecidableEq, Repr

/-- One entry `JSONLogger.log_detection` appends (lines 430-458), restricted
to the fields the claims are about. -/
structure DetectionRecord where
  src_ip : String
  prediction : String
  confidence : ℚ
  action : Action
  reasons : List Reason
deriving DecidableEq, Repr

/-- One classification outcome reaching the detection section of
`DDoSDetectionSystem.process_packet` (lines 528-567): the flow's source
address, the classifier's verdict, and the outcome of the external
enforcement command should a block be attempted. -/
structure DetectEvent where
  src_ip : String
  is_malicious : Bool
  label : String
  confidence : ℚ
  reasons : List Reason
  world : CmdOutcome
deriving DecidableEq, Repr

/-- The mutable state the detection section touches: the session's
already-flagged addresses, the filter, the append-only log, and the
detection counter. -/
structure SysState where
  malicious_ips : List String
  filter : IPTablesFilter
  logs : List DetectionRecord
  detection_count : Nat
deriving DecidableEq, Repr

/-- `DDoSDetectionSystem.__init__`: empty flagged set, empty filter, empty
log. -/
def initState : SysState := ⟨[], ⟨[]⟩, [], 0⟩

/-- The detection section of `process_packet` (lines 536-567): on a
malicious verdict for a source address not yet flagged this session, flag
it, attempt the block, and append one DetectionRecord whose action is
`blocked` or `detected` according to the block outcome; otherwise do
nothing. -/
def process_detection (s : SysState) (ev : DetectEvent) : SysState :=
  if ev.is_malicious then
    if ev.src_ip ∈ s.malicious_ips then s
    else
      let br := block_ip s.filter ev.src_ip ev.world
      let action := if br.success then Action.blocked else Action.detected
      let record : DetectionRecord :=
        ⟨ev.src_ip, ev.label, ev.confidence, action, ev.reasons⟩
      { malicious_ips := s.malicious_ips ++ [ev.src_ip],
        filter := br.filter,
        logs := s.logs ++ [record],
        detection_count := s.detection_count + 1 }
  else s

/-- The record `process_detection` appends for this event, if any. -/
def stepRecord (s : SysState) (ev : DetectEvent) : Option DetectionRecord :=
  if ev.is_malicious ∧ ev.src_ip ∉ s.malicious_ips then
    some ⟨ev.src_ip, ev.label, ev.confidence,
      if (block_ip s.filter ev.src_ip ev.world).success then Action.blocked
      else Action.detected,
      ev.reasons⟩
  else none

/-- A whole session: the detection section replayed over a sequence of
classification outcomes, starting from the fresh system. -/
def runEvents (events : List DetectEvent) : SysState :=
  events.foldl process_detection initState

/-- The log entries a session produced for one source address. -/
def countSrc (a : String) (logs : List DetectionRecord) : Nat :=
  (logs.filter (fun r => r.src_ip = a)).length

/-- Flow records the running system can hold: some packet sequence applied
to a fresh flow by `add_packet`. -/
def FlowReached (f : Flow) : Prop :=
  ∃ (src dst : String) (sp dp proto : Nat) (ps : List (Packet × ℚ × Bool)),
    f = ps.foldl (fun a x => a.add_packet x.1 x.2.1 x.2.2) (Flow.init src dst sp dp proto)

/-- An all-zero feature snapshot (every field at its dictionary default). -/
def zeroSnap : FeatureSnapshot := {}

/-- A snapshot with 51 SYNs and 5 ACKs and every other feature zero: its
SYN:ACK ratio is 51/5 = 10.2. -/
def synSkewSnap : FeatureSnapshot :=
  { zeroSnap with syn_flag_count := 51, ack_flag_count := 5 }

/-- A single TCP SYN packet from 10.0.0.1 to 10.0.0.2. -/
def synPacket : Packet :=
  ⟨some ⟨"10.0.0.1", "10.0.0.2", 6⟩, Transport.tcp 1 2 2, 60⟩

/-- The flow after exactly one (forward) packet: a single-packet flow, whose
duration is zero. -/
def oneFwdFlow : Flow :=
  (Flow.init "10.0.0.1" "10.0.0.2" 1 2 6).add_packet synPacket 5 true

/-- A classifier whose loaded model fails on every input. -/
def failingModelClassifier : MLClassifier :=
  ⟨false, fun _ => Except.error "prediction error"⟩

end DDoS

namespace DDoS

/-- C1 (counterexample): the snapshot with 51 SYNs and 5 ACKs satisfies the
claim's trigger condition — SYN count above 50 and SYN:ACK ratio 10.2 > 10 —
yet `heuristic_detection` adds no SYN-flood reason for it, because the
source divides by `ack + 1` (51/6 = 8.5 ≤ 10). -/
theorem c1_spec_ratio_not_fired :
    synFloodSpecTrigger 51 5 ∧
      Reason.synFlood ∉ (heuristic_detection synSkewSnap).reasons := by
  constructor
  · norm_num [synFloodSpecTrigger]
  · norm_num [heuristic_detection, synSkewSnap, zeroSnap]

/-- C1 (amended): for every snapshot, the SYN-flood rule adds its reason iff
the SYN count exceeds 50 and either the ACK count is zero or the SYN count
divided by (ACK count + 1) exceeds 10. -/
theorem c1_syn_flood_rule (s : FeatureSnapshot) :
    Reason.synFlood ∈ (heuristic_detection s).reasons ↔
      (s.syn_flag_count > 50 ∧
        (s.ack_flag_count = 0 ∨ (s.syn_flag_count : ℚ) / ((s.ack_flag_count : ℚ) + 1) > 10)) := by
  unfold heuristic_detection
  by_cases hA : s.flow_packets_per_sec > 1000 <;>
  by_cases hB : s.syn_flag_count > 50 ∧
      (s.ack_flag_count = 0 ∨ (s.syn_flag_count : ℚ) / ((s.ack_flag_count : ℚ) + 1) > 10) <;>
  by_cases hC : s.flow_bytes_per_sec > 10000000 <;>
  by_cases hD : s.avg_pkt_size < 100 ∧ s.flow_packets_per_sec > 500 <;>
  by_cases hE : s.total_fwd_packets > 100 ∧
      (s.total_bwd_packets = 0 ∨ (s.total_fwd_packets : ℚ) / ((s.total_bwd_packets : ℚ) + 1) > 20) <;>
  simp [hA, hB, hC, hD, hE]


/-- C2 (counterexample): `oneFwdFlow` is a single-packet flow with duration
zero, and the effective duration substituted for it is not 1 microsecond
(which would be 1/1000000 s): the source substitutes 0.001 s. -/
theorem c2_floor_is_not_one_microsecond :
    oneFwdFlow.get_duration = 0 ∧ oneFwdFlow.duration_sec ≠ 1 / 1000000 := by
  constructor <;>
    norm_num [oneFwdFlow, Flow.get_duration, Flow.duration_sec, Flow.add_packet,
      Flow.init, synPacket, Packet.tcpFlags]

/-- C2 (amended): for every flow record of duration zero, the extractor
substitutes 0.001 seconds (1000 microseconds, one millisecond) as the
effective duration; it is positive, so no per-second rate divides by zero,
and every rate is that count divided by the substituted duration. -/
theorem c2_zero_duration_floor (std : List ℚ → ℚ) (f : Flow)
    (h : f.get_duration = 0) :
    f.duration_sec = 1 / 1000 ∧ 0 < f.duration_sec ∧
      (f.extract_features std).flow_bytes_per_sec =
        ((f.fwd_bytes : ℚ) + (f.bwd_bytes : ℚ)) / f.duration_sec ∧
      (f.extract_features std).flow_packets_per_sec =
        ((f.fwd_packets : ℚ) + (f.bwd_packets : ℚ)) / f.duration_sec ∧
      (f.extract_features std).fwd_packets_per_sec = (f.fwd_packets : ℚ) / f.duration_sec ∧
      (f.extract_features std).bwd_packets_per_sec = (f.bwd_packets : ℚ) / f.duration_sec := by
  have hd : f.duration_sec = 1 / 1000 := by
    rw [Flow.duration_sec, h]
    norm_num
  refine ⟨hd, by rw [hd]; norm_num, ?_, ?_, ?_, ?_⟩ <;>
    simp [Flow.extract_features]

/-- C2 (witness for the amended theorem) at the concrete single-packet flow
`oneFwdFlow`. -/
theorem c2_zero_duration_floor_witness :
    oneFwdFlow.get_duration = 0 ∧
      (oneFwdFlow.duration_sec = 1 / 1000 ∧ 0 < oneFwdFlow.duration_sec ∧
        (oneFwdFlow.extract_features (fun _ => 0)).flow_bytes_per_sec =
          ((oneFwdFlow.fwd_bytes : ℚ) + (oneFwdFlow.bwd_bytes : ℚ)) / oneFwdFlow.duration_sec ∧
        (oneFwdFlow.extract_features (fun _ => 0)).flow_packets_per_sec =
          ((oneFwdFlow.fwd_packets : ℚ) + (oneFwdFlow.bwd_packets : ℚ)) / oneFwdFlow.duration_sec ∧
        (oneFwdFlow.extract_features (fun _ => 0)).fwd_packets_per_sec =
          (oneFwdFlow.fwd_packets : ℚ) / oneFwdFlow.duration_sec ∧
        (oneFwdFlow.extract_features (fun _ => 0)).bwd_packets_per_sec =
          (oneFwdFlow.bwd_packets : ℚ) / oneFwdFlow.duration_sec) :=
  ⟨by norm_num [oneFwdFlow, Flow.get_duration, Flow.add_packet, Flow.init, synPacket,
      Packet.tcpFlags],
   c2_zero_duration_floor (fun _ => 0) oneFwdFlow
     (by norm_num [oneFwdFlow, Flow.get_duration, Flow.add_packet, Flow.init, synPacket,
        Packet.tcpFlags])⟩

/-- C4: whenever the model path fails on a snapshot, `predict` returns
exactly the heuristic variant's result for that call; by construction it
returns a value on every input, so no failure reaches the caller. -/
theorem c4_predict_falls_back (c : MLClassifier) (s : FeatureSnapshot) (e : String)
    (h : c.model_infer s = Except.error e) :
    c.predict s = PredictResult.heur (heuristic_detection s) := by
  unfold MLClassifier.predict
  by_cases hu : c.use_heuristics
  · simp [hu]
  · simp [hu, h]

/-- C4 (witness): the classifier whose model fails on every call returns the
heuristic result for the all-zero snapshot. -/
theorem c4_predict_falls_back_witness :
    failingModelClassifier.model_infer zeroSnap = Except.error "prediction error" ∧
      failingModelClassifier.predict zeroSnap =
        PredictResult.heur (heuristic_detection zeroSnap) :=
  ⟨rfl, c4_predict_falls_back failingModelClassifier zeroSnap "prediction error" rfl⟩

/-- C9: feature extraction is pure — the method call returns its receiver
unmutated, and a second call on that unmutated record yields a snapshot
identical to the first call's. -/
theorem c9_extract_features_pure (std : List ℚ → ℚ) (f : Flow) :
    (f.extract_features_call std).2 = f ∧
      (((f.extract_features_call std).2).extract_features_call std).1 =
        (f.extract_features_call std).1 :=
  ⟨rfl, rfl⟩

/-- C10: `unblock_ip` returns success and removes the address whenever the
external delete command completes within its timeout, regardless of its
exit code; it returns failure and leaves the blocked set unchanged exactly
when the invocation raises. -/
theorem c10_unblock_success_on_completion (f : IPTablesFilter) (ip : String) (rc : Int) :
    (unblock_ip f ip (CmdOutcome.completed rc)).1 = true ∧
      ip ∉ ((unblock_ip f ip (CmdOutcome.completed rc)).2).blocked_ips ∧
      (unblock_ip f ip CmdOutcome.raised).1 = false ∧
      (unblock_ip f ip CmdOutcome.raised).2 = f := by
  refine ⟨rfl, ?_, rfl, rfl⟩
  simp [unblock_ip]


lemma block_ip_success_mem (f : IPTablesFilter) (ip : String) (w : CmdOutcome)
    (h : (block_ip f ip w).success = true) :
    ip ∈ (block_ip f ip w).filter.blocked_ips := by
  unfold block_ip at *
  by_cases h1 : ip ∈ f.blocked_ips
  · simp [h1]
  · by_cases h2 : py_startswith ip "127." = true ∨ ip = "0.0.0.0"
    · simp [h1, h2] at h
    · cases w with
      | completed rc =>
        by_cases h3 : rc = 0
        · simp [h1, h2, h3]
        · simp [h1, h2, h3] at h
      | raised => simp [h1, h2] at h

lemma block_ip_already_blocked (f : IPTablesFilter) (ip : String) (w : CmdOutcome)
    (h : ip ∈ f.blocked_ips) :
    block_ip f ip w = ⟨true, f, 0⟩ := by
  unfold block_ip
  simp [h]

lemma block_ip_invocations_le (f : IPTablesFilter) (ip : String) (w : CmdOutcome) :
    (block_ip f ip w).invocations ≤ 1 := by
  unfold block_ip
  by_cases h1 : ip ∈ f.blocked_ips
  · simp [h1]
  · by_cases h2 : py_startswith ip "127." = true ∨ ip = "0.0.0.0"
    · simp [h1, h2]
    · cases w with
      | completed rc =>
        by_cases h3 : rc = 0 <;> simp [h1, h2, h3]
      | raised => simp [h1, h2]

/-- C7: if a first `block_ip` call for an address succeeds, a second call
for the same address is a pure no-op — it succeeds, changes nothing and runs
no external command — so the external command runs at most once across both
calls. -/
theorem c7_block_idempotent (f : IPTablesFilter) (ip : String) (w1 w2 : CmdOutcome)
    (h : (block_ip f ip w1).success = true) :
    (block_ip (block_ip f ip w1).filter ip w2).success = true ∧
      (block_ip (block_ip f ip w1).filter ip w2).filter = (block_ip f ip w1).filter ∧
      (block_ip (block_ip f ip w1).filter ip w2).invocations = 0 ∧
      (block_ip f ip w1).invocations +
        (block_ip (block_ip f ip w1).filter ip w2).invocations ≤ 1 := by
  have hm := block_ip_success_mem f ip w1 h
  have h2 := block_ip_already_blocked (block_ip f ip w1).filter ip w2 hm
  rw [h2]
  refine ⟨rfl, rfl, rfl, ?_⟩
  simpa using block_ip_invocations_le f ip w1

/-- C7 (witness): blocking 9.9.9.9 on an empty filter with a clean external
exit, twice. -/
theorem c7_block_idempotent_witness :
    (block_ip ⟨[]⟩ "9.9.9.9" (CmdOutcome.completed 0)).success = true ∧
      ((block_ip (block_ip ⟨[]⟩ "9.9.9.9" (CmdOutcome.completed 0)).filter "9.9.9.9"
          (CmdOutcome.completed 0)).success = true ∧
        (block_ip (block_ip ⟨[]⟩ "9.9.9.9" (CmdOutcome.completed 0)).filter "9.9.9.9"
            (CmdOutcome.completed 0)).filter =
          (block_ip ⟨[]⟩ "9.9.9.9" (CmdOutcome.completed 0)).filter ∧
        (block_ip (block_ip ⟨[]⟩ "9.9.9.9" (CmdOutcome.completed 0)).filter "9.9.9.9"
            (CmdOutcome.completed 0)).invocations = 0 ∧
        (block_ip ⟨[]⟩ "9.9.9.9" (CmdOutcome.completed 0)).invocations +
          (block_ip (block_ip ⟨[]⟩ "9.9.9.9" (CmdOutcome.completed 0)).filter "9.9.9.9"
            (CmdOutcome.completed 0)).invocations ≤ 1) :=
  ⟨by simp [block_ip, py_startswith],
   c7_block_idempotent ⟨[]⟩ "9.9.9.9" (CmdOutcome.completed 0) (CmdOutcome.completed 0)
     (by simp [block_ip, py_startswith])⟩

lemma filter_reached_no_loopback (f : IPTablesFilter) (hr : FilterReached f) :
    ∀ x ∈ f.blocked_ips, ¬(py_startswith x "127." = true ∨ x = "0.0.0.0") := by
  induction hr with
  | init => simp
  | block g ip w _ ih =>
    intro x hx
    unfold block_ip at hx
    by_cases h1 : ip ∈ g.blocked_ips
    · simp [h1] at hx
      exact ih x hx
    · by_cases h2 : py_startswith ip "127." = true ∨ ip = "0.0.0.0"
      · simp [h1, h2] at hx
        exact ih x hx
      · cases w with
        | completed rc =>
          by_cases h3 : rc = 0
          · simp [h1, h2, h3] at hx
            rcases hx with hx | hx
            · exact ih x hx
            · subst hx; exact h2
          · simp [h1, h2, h3] at hx
            exact ih x hx
        | raised =>
          simp [h1, h2] at hx
          exact ih x hx
  | unblock g ip w _ ih =>
    intro x hx
    unfold unblock_ip at hx
    cases w with
    | completed rc =>
      simp [List.mem_filter] at hx
      exact ih x hx.1
    | raised => exact ih x hx

/-- C8: on every filter state the running system can reach, blocking a
loopback address (prefix `127.`) or the unspecified address `0.0.0.0` fails,
runs no external command, and leaves the blocked set unchanged. -/
theorem c8_refuses_loopback_and_unspecified (f : IPTablesFilter) (ip : String)
    (w : CmdOutcome) (hr : FilterReached f)
    (hip : py_startswith ip "127." = true ∨ ip = "0.0.0.0") :
    (block_ip f ip w).success = false ∧ (block_ip f ip w).invocations = 0 ∧
      (block_ip f ip w).filter = f := by
  have hnotmem : ip ∉ f.blocked_ips := fun hmem =>
    filter_reached_no_loopback f hr ip hmem hip
  unfold block_ip
  simp [hnotmem, hip]

/-- C8 (witness): blocking 127.0.0.1 on the fresh empty filter. -/
theorem c8_refuses_loopback_witness :
    FilterReached ⟨[]⟩ ∧
      (py_startswith "127.0.0.1" "127." = true ∨ "127.0.0.1" = "0.0.0.0") ∧
      ((block_ip ⟨[]⟩ "127.0.0.1" (CmdOutcome.completed 0)).success = false ∧
        (block_ip ⟨[]⟩ "127.0.0.1" (CmdOutcome.completed 0)).invocations = 0 ∧
        (block_ip ⟨[]⟩ "127.0.0.1" (CmdOutcome.completed 0)).filter = ⟨[]⟩) :=
  ⟨FilterReached.init, Or.inl (by decide),
   c8_refuses_loopback_and_unspecified ⟨[]⟩ "127.0.0.1" (CmdOutcome.completed 0)
     FilterReached.init (Or.inl (by decide))⟩


lemma countSrc_append (a : String) (l1 l2 : List DetectionRecord) :
    countSrc a (l1 ++ l2) = countSrc a l1 + countSrc a l2 := by
  simp [countSrc, List.filter_append]

lemma countSrc_singleton (a : String) (r : DetectionRecord) :
    countSrc a [r] = if r.src_ip = a then 1 else 0 := by
  by_cases h : r.src_ip = a <;> simp [countSrc, h]

lemma process_detection_logs (s : SysState) (ev : DetectEvent) :
    (process_detection s ev).logs = s.logs ++ (stepRecord s ev).toList := by
  unfold process_detection stepRecord
  by_cases h1 : ev.is_malicious
  · by_cases h2 : ev.src_ip ∈ s.malicious_ips
    · simp [h1, h2]
    · simp [h1, h2]
  · simp [h1]

/-- The at-most-once bookkeeping invariant: an address has at most one log
entry, and only once it is flagged. -/
def SessionInv (s : SysState) : Prop :=
  ∀ a : String, countSrc a s.logs ≤ if a ∈ s.malicious_ips then 1 else 0

lemma session_inv_init : SessionInv initState := by
  intro a
  simp [initState, countSrc]

lemma session_inv_step (s : SysState) (ev : DetectEvent) (hs : SessionInv s) :
    SessionInv (process_detection s ev) := by
  intro a
  have hsa := hs a
  unfold process_detection
  by_cases h1 : ev.is_malicious
  · by_cases h2 : ev.src_ip ∈ s.malicious_ips
    · simpa [h1, h2] using hsa
    · simp only [h1, h2, if_true, if_false]
      simp only [countSrc_append, countSrc_singleton, List.mem_append, List.mem_singleton]
      by_cases ha : ev.src_ip = a
      · subst ha
        have h0 : countSrc ev.src_ip s.logs = 0 := by
          simp [h2] at hsa
          omega
        simp [h0]
      · by_cases him : a ∈ s.malicious_ips <;>
          simp [ha, him, Ne.symm ha] at hsa ⊢ <;> omega
  · simpa [h1] using hsa

lemma session_inv_run (evs : List DetectEvent) (s : SysState) (hs : SessionInv s) :
    SessionInv (evs.foldl process_detection s) := by
  induction evs generalizing s with
  | nil => simpa using hs
  | cons e rest ih => exact ih _ (session_inv_step s e hs)

/-- C3: over any session, at most one DetectionRecord is appended per source
address; a step appends a record exactly on a malicious verdict for a
not-yet-flagged address, and that record carries the event's address and
action `blocked` iff the block attempt succeeded (`detected` otherwise). -/
theorem c3_one_record_per_address (events : List DetectEvent) (a : String) :
    countSrc a (runEvents events).logs ≤ 1 ∧
      (∀ s ev, (process_detection s ev).logs = s.logs ++ (stepRecord s ev).toList) ∧
      (∀ s ev, (stepRecord s ev).isSome = true ↔
        (ev.is_malicious = true ∧ ev.src_ip ∉ s.malicious_ips)) ∧
      (∀ s ev r, stepRecord s ev = some r →
        r.src_ip = ev.src_ip ∧
          (r.action = Action.blocked ↔
            (block_ip s.filter ev.src_ip ev.world).success = true)) := by
  refine ⟨?_, process_detection_logs, ?_, ?_⟩
  · have h := (session_inv_run events initState session_inv_init) a
    refine le_trans h ?_
    split <;> simp
  · intro s ev
    unfold stepRecord
    by_cases h1 : ev.is_malicious ∧ ev.src_ip ∉ s.malicious_ips
    · simp [h1.1, h1.2]
    · rw [if_neg h1]
      simp only [Option.isSome_none]
      constructor
      · intro hcon
        simp at hcon
      · intro hcon
        exact absurd hcon h1
  · intro s ev r hr
    unfold stepRecord at hr
    by_cases h1 : ev.is_malicious ∧ ev.src_ip ∉ s.malicious_ips
    · rw [if_pos h1, Option.some_inj] at hr
      subst hr
      refine ⟨rfl, ?_⟩
      by_cases hb : (block_ip s.filter ev.src_ip ev.world).success = true <;>
        simp [hb]
    · rw [if_neg h1] at hr
      cases hr

/-- C5: two IP packets with swapped (address, port) endpoints and equal
protocol map to the same bidirectional flow key, and the key's first
(address, port) pair is lexicographically no greater than its second. -/
theorem c5_flow_key_bidirectional (p1 p2 : Packet) (i1 i2 : IPLayer)
    (h1 : p1.ip = some i1) (h2 : p2.ip = some i2)
    (hsrc : i2.src = i1.dst) (hdst : i2.dst = i1.src) (hproto : i2.proto = i1.proto)
    (hports : p2.transport.ports = ((p1.transport.ports).2, (p1.transport.ports).1)) :
    get_flow_key p1 = get_flow_key p2 ∧
      ∀ a b pa pb pr, get_flow_key p1 = some (a, b, pa, pb, pr) →
        pairLe (a, pa) (b, pb) := by
  rcases hq : p1.transport.ports with ⟨pa, pb⟩
  rw [hq] at hports
  have e1 : get_flow_key p1 =
      if i1.src < i1.dst ∨ (i1.src = i1.dst ∧ pa < pb) then
        some (i1.src, i1.dst, pa, pb, i1.proto)
      else some (i1.dst, i1.src, pb, pa, i1.proto) := by
    simp [get_flow_key, h1, hq]
  have e2 : get_flow_key p2 =
      if i1.dst < i1.src ∨ (i1.dst = i1.src ∧ pb < pa) then
        some (i1.dst, i1.src, pb, pa, i1.proto)
      else some (i1.src, i1.dst, pa, pb, i1.proto) := by
    simp [get_flow_key, h2, hports, hsrc, hdst, hproto]
  constructor
  · rw [e1, e2]
    rcases lt_trichotomy i1.src i1.dst with hlt | heq | hgt
    · rw [if_pos (Or.inl hlt), if_neg (by
        rintro (h | ⟨h, _⟩)
        · exact absurd h hlt.asymm
        · exact absurd h hlt.ne')]
    · rcases lt_trichotomy pa pb with hp | hpeq | hp
      · rw [if_pos (Or.inr ⟨heq, hp⟩), if_neg (by
          rintro (h | ⟨_, h⟩)
          · exact absurd h (heq ▸ lt_irrefl i1.src)
          · exact absurd h hp.asymm)]
      · rw [if_neg (by
          rintro (h | ⟨_, h⟩)
          · exact absurd h (heq ▸ lt_irrefl i1.src)
          · exact absurd h (hpeq ▸ lt_irrefl pa)),
          if_neg (by
          rintro (h | ⟨_, h⟩)
          · exact absurd h (heq ▸ lt_irrefl i1.src)
          · exact absurd h (hpeq ▸ lt_irrefl pa))]
        simp [heq, hpeq]
      · rw [if_neg (by
          rintro (h | ⟨_, h⟩)
          · exact absurd h (heq ▸ lt_irrefl i1.src)
          · exact absurd h hp.asymm),
          if_pos (Or.inr ⟨heq.symm, hp⟩)]
    · rw [if_neg (by
        rintro (h | ⟨h, _⟩)
        · exact absurd h hgt.asymm
        · exact absurd h hgt.ne'), if_pos (Or.inl hgt)]
  · intro a b pa2 pb2 pr hk
    rw [e1] at hk
    by_cases hc : i1.src < i1.dst ∨ (i1.src = i1.dst ∧ pa < pb)
    · rw [if_pos hc, Option.some_inj] at hk
      simp only [Prod.mk.injEq] at hk
      obtain ⟨ha, hb, hpa, hpb, hpr⟩ := hk
      subst ha; subst hb; subst hpa; subst hpb
      rcases hc with h | ⟨h, hp⟩
      · exact Or.inl h
      · exact Or.inr ⟨h, hp.le⟩
    · rw [if_neg hc, Option.some_inj] at hk
      push_neg at hc
      simp only [Prod.mk.injEq] at hk
      obtain ⟨ha, hb, hpa, hpb, hpr⟩ := hk
      subst ha; subst hb; subst hpa; subst hpb
      rcases lt_or_eq_of_le hc.1 with h | h
      · exact Or.inl h
      · exact Or.inr ⟨h, hc.2 h.symm⟩

/-- C5 (witness): a TCP packet 10.0.0.2:5 → 10.0.0.1:7 and its reverse
10.0.0.1:7 → 10.0.0.2:5 with protocol 6. -/
theorem c5_flow_key_bidirectional_witness :
    (Packet.ip ⟨some ⟨"10.0.0.2", "10.0.0.1", 6⟩, Transport.tcp 5 7 0, 60⟩ =
      some ⟨"10.0.0.2", "10.0.0.1", 6⟩) ∧
      (get_flow_key ⟨some ⟨"10.0.0.2", "10.0.0.1", 6⟩, Transport.tcp 5 7 0, 60⟩ =
        get_flow_key ⟨some ⟨"10.0.0.1", "10.0.0.2", 6⟩, Transport.tcp 7 5 0, 64⟩ ∧
      ∀ a b pa pb pr,
        get_flow_key ⟨some ⟨"10.0.0.2", "10.0.0.1", 6⟩, Transport.tcp 5 7 0, 60⟩ =
          some (a, b, pa, pb, pr) → pairLe (a, pa) (b, pb)) :=
  ⟨rfl,
   c5_flow_key_bidirectional
     ⟨some ⟨"10.0.0.2", "10.0.0.1", 6⟩, Transport.tcp 5 7 0, 60⟩
     ⟨some ⟨"10.0.0.1", "10.0.0.2", 6⟩, Transport.tcp 7 5 0, 64⟩
     ⟨"10.0.0.2", "10.0.0.1", 6⟩ ⟨"10.0.0.1", "10.0.0.2", 6⟩
     rfl rfl rfl rfl rfl rfl⟩

/-- Per-direction bookkeeping: a direction with no packets has no size
samples and no inter-arrival samples. -/
def FlowDirInv (f : Flow) : Prop :=
  (f.bwd_packets = 0 → f.bwd_packet_sizes = [] ∧ f.bwd_iat = []) ∧
  (f.fwd_packets = 0 → f.fwd_packet_sizes = [] ∧ f.fwd_iat = [])

lemma flow_dir_inv_init (src dst : String) (sp dp proto : Nat) :
    FlowDirInv (Flow.init src dst sp dp proto) := by
  simp [FlowDirInv, Flow.init]

lemma flow_dir_inv_add (f : Flow) (p : Packet) (t : ℚ) (d : Bool)
    (hf : FlowDirInv f) : FlowDirInv (f.add_packet p t d) := by
  obtain ⟨hb, hw⟩ := hf
  unfold Flow.add_packet
  rcases hfl : p.tcpFlags with _ | flags <;> cases d <;>
    constructor <;> intro h0 <;>
    simp_all [FlowDirInv]

lemma flow_dir_inv_fold (ps : List (Packet × ℚ × Bool)) (g : Flow)
    (hg : FlowDirInv g) :
    FlowDirInv (ps.foldl (fun a x => a.add_packet x.1 x.2.1 x.2.2) g) := by
  induction ps generalizing g with
  | nil => simpa using hg
  | cons x rest ih => exact ih _ (flow_dir_inv_add g x.1 x.2.1 x.2.2 hg)

lemma flow_reached_dir_inv (f : Flow) (hf : FlowReached f) : FlowDirInv f := by
  obtain ⟨src, dst, sp, dp, proto, ps, rfl⟩ := hf
  exact flow_dir_inv_fold ps _ (flow_dir_inv_init src dst sp dp proto)

/-- C6: on every flow record the system can build, a direction with zero
packets has all its per-direction features equal to 0 — size min/max/mean/
standard deviation, all inter-arrival statistics, packets per second and
average segment size — and the down/up ratio is 0 when the forward count is
zero. -/
theorem c6_empty_direction_zero_stats (std : List ℚ → ℚ) (f : Flow)
    (hf : FlowReached f) :
    (f.bwd_packets = 0 →
      (f.extract_features std).bwd_pkt_len_min = 0 ∧
      (f.extract_features std).bwd_pkt_len_max = 0 ∧
      (f.extract_features std).bwd_pkt_len_mean = 0 ∧
      (f.extract_features std).bwd_pkt_len_std = 0 ∧
      (f.extract_features std).bwd_iat_total = 0 ∧
      (f.extract_features std).bwd_iat_mean = 0 ∧
      (f.extract_features std).bwd_iat_std = 0 ∧
      (f.extract_features std).bwd_iat_min = 0 ∧
      (f.extract_features std).bwd_iat_max = 0 ∧
      (f.extract_features std).bwd_packets_per_sec = 0 ∧
      (f.extract_features std).bwd_seg_size_avg = 0) ∧
    (f.fwd_packets = 0 →
      (f.extract_features std).fwd_pkt_len_min = 0 ∧
      (f.extract_features std).fwd_pkt_len_max = 0 ∧
      (f.extract_features std).fwd_pkt_len_mean = 0 ∧
      (f.extract_features std).fwd_pkt_len_std = 0 ∧
      (f.extract_features std).fwd_iat_total = 0 ∧
      (f.extract_features std).fwd_iat_mean = 0 ∧
      (f.extract_features std).fwd_iat_std = 0 ∧
      (f.extract_features std).fwd_iat_min = 0 ∧
      (f.extract_features std).fwd_iat_max = 0 ∧
      (f.extract_features std).fwd_packets_per_sec = 0 ∧
      (f.extract_features std).fwd_seg_size_avg = 0 ∧
      (f.extract_features std).down_up_ratio = 0) := by
  have hinv := flow_reached_dir_inv f hf
  constructor
  · intro h0
    obtain ⟨hsz, hiat⟩ := hinv.1 h0
    simp [Flow.extract_features, hsz, hiat, h0, listMin, listMax, meanOr0, stdOr0,
      divIfPos]
  · intro h0
    obtain ⟨hsz, hiat⟩ := hinv.2 h0
    simp [Flow.extract_features, hsz, hiat, h0, listMin, listMax, meanOr0, stdOr0,
      divIfPos]

/-- C6 (witness): the one-packet flow `oneFwdFlow` has no backward packets,
and all its backward statistics are 0. -/
theorem c6_empty_direction_zero_stats_witness :
    FlowReached oneFwdFlow ∧ oneFwdFlow.bwd_packets = 0 ∧
      ((oneFwdFlow.bwd_packets = 0 →
        (oneFwdFlow.extract_features (fun _ => 0)).bwd_pkt_len_min = 0 ∧
        (oneFwdFlow.extract_features (fun _ => 0)).bwd_pkt_len_max = 0 ∧
        (oneFwdFlow.extract_features (fun _ => 0)).bwd_pkt_len_mean = 0 ∧
        (oneFwdFlow.extract_features (fun _ => 0)).bwd_pkt_len_std = 0 ∧
        (oneFwdFlow.extract_features (fun _ => 0)).bwd_iat_total = 0 ∧
        (oneFwdFlow.extract_features (fun _ => 0)).bwd_iat_mean = 0 ∧
        (oneFwdFlow.extract_features (fun _ => 0)).bwd_iat_std = 0 ∧
        (oneFwdFlow.extract_features (fun _ => 0)).bwd_iat_min = 0 ∧
        (oneFwdFlow.extract_features (fun _ => 0)).bwd_iat_max = 0 ∧
        (oneFwdFlow.extract_features (fun _ => 0)).bwd_packets_per_sec = 0 ∧
        (oneFwdFlow.extract_features (fun _ => 0)).bwd_seg_size_avg = 0) ∧
      (oneFwdFlow.fwd_packets = 0 →
        (oneFwdFlow.extract_features (fun _ => 0)).fwd_pkt_len_min = 0 ∧
        (oneFwdFlow.extract_features (fun _ => 0)).fwd_pkt_len_max = 0 ∧
        (oneFwdFlow.extract_features (fun _ => 0)).fwd_pkt_len_mean = 0 ∧
        (oneFwdFlow.extract_features (fun _ => 0)).fwd_pkt_len_std = 0 ∧
        (oneFwdFlow.extract_features (fun _ => 0)).fwd_iat_total = 0 ∧
        (oneFwdFlow.extract_features (fun _ => 0)).fwd_iat_mean = 0 ∧
        (oneFwdFlow.extract_features (fun _ => 0)).fwd_iat_std = 0 ∧
        (oneFwdFlow.extract_features (fun _ => 0)).fwd_iat_min = 0 ∧
        (oneFwdFlow.extract_features (fun _ => 0)).fwd_iat_max = 0 ∧
        (oneFwdFlow.extract_features (fun _ => 0)).fwd_packets_per_sec = 0 ∧
        (oneFwdFlow.extract_features (fun _ => 0)).fwd_seg_size_avg = 0 ∧
        (oneFwdFlow.extract_features (fun _ => 0)).down_up_ratio = 0)) :=
  ⟨⟨"10.0.0.1", "10.0.0.2", 1, 2, 6, [(synPacket, 5, true)], rfl⟩,
   by norm_num [oneFwdFlow, Flow.add_packet, Flow.init, synPacket, Packet.tcpFlags],
   c6_empty_direction_zero_stats (fun _ => 0) oneFwdFlow
     ⟨"10.0.0.1", "10.0.0.2", 1, 2, 6, [(synPacket, 5, true)], rfl⟩⟩

end DDoS
